import Mathlib

/-!
Verification of the uniswapx-service core logic: the order validator
(`lib/handlers/index.ts`, class `OrderValidator`) and the generic orders
repository (`lib/repositories/generic-orders-repository.ts`): query routing,
cursor validation, limit clamping and the denormalized composite attributes.

Each definition is a shallow embedding of the corresponding TypeScript
function.  External collaborators whose sources are not part of the
repository snapshot (the Joi-based `FieldValidator`, the cursor
encryption/serialization pair, the comparison-filter parser and the
enumeration constants) are modelled from the specification, as marked in
their doc comments.
-/

set_option autoImplicit false

/-! ## Order validator (`lib/handlers/index.ts`, `OrderValidator`) -/

/-- Embeds `OrderValidationResponse = { valid: boolean, errorString?: string }`. -/
structure OrderValidationResponse where
  valid : Bool
  errorString : Option String := none
deriving DecidableEq, Repr

/-- Embeds `DutchOutput`: one entry of `order.info.outputs`.  Amounts are
`BigNumber`s in the source, embedded as unbounded integers. -/
structure DutchOutput where
  token : String
  recipient : String
  startAmount : Int
  endAmount : Int
deriving DecidableEq, Repr

/-- Embeds the input of the order, `order.info.input` with fields `token` and
`amount`. -/
structure DutchInput where
  token : String
  amount : Int
deriving DecidableEq, Repr

/-- Embeds the fields of `order.info` read by `OrderValidator.validate`. -/
structure OrderInfo where
  deadline : Int
  startTime : Int
  nonce : Int
  offerer : String
  reactor : String
  input : DutchInput
  outputs : List DutchOutput
deriving DecidableEq, Repr

/-- Embeds a `DutchLimitOrder` as far as the validator reads it: its `info`
record and the result of `order.hash()` (the hash is supplied with the order,
not recomputed by the validator). -/
structure DutchLimitOrder where
  info : OrderInfo
  hash : String
deriving DecidableEq, Repr

/-- Modelled from the spec: the Joi-based `FieldValidator` module
(`field-validator.ts`) is absent from the snapshot.  Each field mirrors
`FieldValidator.isValidX().validate(v).error`: `none` when the value is
well-formed, `some e` carrying the Joi error text otherwise. -/
structure FieldValidator where
  isValidEthAddress : String → Option String
  isValidNonce : String → Option String
  isValidOrderHash : String → Option String

/-- Embeds the `OrderValidator` constructor state: the injected clock
`getCurrentTime` (constant during one validation) and `minOffset`
(default 60). -/
structure OrderValidator where
  fieldValidator : FieldValidator
  getCurrentTime : Int
  minOffset : Int := 60

/-- Embeds `ONE_YEAR_IN_SECONDS = 60 * 60 * 24 * 365`. -/
def ONE_YEAR_IN_SECONDS : Int := 60 * 60 * 24 * 365

/-- Embeds `OrderValidator.validateDeadline`. -/
def OrderValidator.validateDeadline (v : OrderValidator) (deadline : Int) :
    OrderValidationResponse :=
  if deadline < v.getCurrentTime + v.minOffset then
    { valid := false, errorString := some "Insufficient Deadline" }
  else if deadline > v.getCurrentTime + ONE_YEAR_IN_SECONDS then
    { valid := false,
      errorString := some "Deadline field invalid: Order expiry cannot be larger than one year" }
  else
    { valid := true }

/-- Embeds `OrderValidator.validateStartTime`. -/
def OrderValidator.validateStartTime (startTime deadline : Int) :
    OrderValidationResponse :=
  if startTime > deadline then
    { valid := false, errorString := some "Invalid startTime: startTime > deadline" }
  else
    { valid := true }

/-- Embeds `OrderValidator.validateNonce` (the nonce is stringified before
being handed to the field validator). -/
def OrderValidator.validateNonce (v : OrderValidator) (nonce : Int) :
    OrderValidationResponse :=
  match v.fieldValidator.isValidNonce (toString nonce) with
  | some e => { valid := false, errorString := some ("Invalid nonce: " ++ e) }
  | none => { valid := true }

/-- Embeds `OrderValidator.validateOfferer`. -/
def OrderValidator.validateOfferer (v : OrderValidator) (offerer : String) :
    OrderValidationResponse :=
  match v.fieldValidator.isValidEthAddress offerer with
  | some e => { valid := false, errorString := some ("Invalid offerer: " ++ e) }
  | none => { valid := true }

/-- Embeds `OrderValidator.validateReactor`. -/
def OrderValidator.validateReactor (v : OrderValidator) (reactor : String) :
    OrderValidationResponse :=
  match v.fieldValidator.isValidEthAddress reactor with
  | some e => { valid := false, errorString := some ("Invalid reactor: " ++ e) }
  | none => { valid := true }

/-- Embeds `OrderValidator.validateInputToken`. -/
def OrderValidator.validateInputToken (v : OrderValidator) (token : String) :
    OrderValidationResponse :=
  match v.fieldValidator.isValidEthAddress token with
  | some e => { valid := false, errorString := some ("Invalid input token: " ++ e) }
  | none => { valid := true }

/-- Embeds `OrderValidator.isValidUint256`:
`value.gte(0) && value.lt(BigNumber.from(1).shl(256))`. -/
def OrderValidator.isValidUint256 (value : Int) : Bool :=
  0 ≤ value && value < 2 ^ 256

/-- Embeds `OrderValidator.validateInputAmount`. -/
def OrderValidator.validateInputAmount (amount : Int) : OrderValidationResponse :=
  if !OrderValidator.isValidUint256 amount then
    { valid := false, errorString := some ("Invalid input amount: " ++ toString amount) }
  else
    { valid := true }

/-- Embeds `OrderValidator.validateOutputs`: the `for`-loop over
`dutchOutputs`, returning at the first failing check of the first failing
output. -/
def OrderValidator.validateOutputs (v : OrderValidator) :
    List DutchOutput → OrderValidationResponse
  | [] => { valid := true }
  | o :: rest =>
    match v.fieldValidator.isValidEthAddress o.token with
    | some _ => { valid := false, errorString := some ("Invalid output token " ++ o.token) }
    | none =>
      match v.fieldValidator.isValidEthAddress o.recipient with
      | some _ => { valid := false, errorString := some ("Invalid recipient " ++ o.recipient) }
      | none =>
        if !OrderValidator.isValidUint256 o.startAmount then
          { valid := false, errorString := some ("Invalid startAmount " ++ toString o.startAmount) }
        else if !OrderValidator.isValidUint256 o.endAmount then
          { valid := false, errorString := some ("Invalid endAmount " ++ toString o.endAmount) }
        else if o.endAmount > o.startAmount then
          { valid := false, errorString := some "Invalid endAmount > startAmount" }
        else
          OrderValidator.validateOutputs v rest

/-- Embeds `OrderValidator.validateHash`. -/
def OrderValidator.validateHash (v : OrderValidator) (orderHash : String) :
    OrderValidationResponse :=
  match v.fieldValidator.isValidOrderHash orderHash with
  | some e => { valid := false, errorString := some ("Invalid orderHash: " ++ e) }
  | none => { valid := true }

/-- Embeds `OrderValidator.validate`: the sequence of early-returning checks. -/
def OrderValidator.validate (v : OrderValidator) (order : DutchLimitOrder) :
    OrderValidationResponse :=
  let deadlineValidation := v.validateDeadline order.info.deadline
  if !deadlineValidation.valid then deadlineValidation
  else
    let startTimeValidation :=
      OrderValidator.validateStartTime order.info.startTime order.info.deadline
    if !startTimeValidation.valid then startTimeValidation
    else
      let nonceValidation := v.validateNonce order.info.nonce
      if !nonceValidation.valid then nonceValidation
      else
        let offererValidation := v.validateOfferer order.info.offerer
        if !offererValidation.valid then offererValidation
        else
          let reactorValidation := v.validateReactor order.info.reactor
          if !reactorValidation.valid then reactorValidation
          else
            let inputTokenValidation := v.validateInputToken order.info.input.token
            if !inputTokenValidation.valid then inputTokenValidation
            else
              let inputAmountValidation :=
                OrderValidator.validateInputAmount order.info.input.amount
              if !inputAmountValidation.valid then inputAmountValidation
              else
                let outputsValidation := v.validateOutputs order.info.outputs
                if !outputsValidation.valid then outputsValidation
                else
                  let orderHashValidation := v.validateHash order.hash
                  if !orderHashValidation.valid then orderHashValidation
                  else { valid := true }

/-- Specification helper: the ordered list of the nine top-level check results
for an order, in the order the source runs them. -/
def OrderValidator.checkList (v : OrderValidator) (order : DutchLimitOrder) :
    List OrderValidationResponse :=
  [v.validateDeadline order.info.deadline,
   OrderValidator.validateStartTime order.info.startTime order.info.deadline,
   v.validateNonce order.info.nonce,
   v.validateOfferer order.info.offerer,
   v.validateReactor order.info.reactor,
   v.validateInputToken order.info.input.token,
   OrderValidator.validateInputAmount order.info.input.amount,
   v.validateOutputs order.info.outputs,
   v.validateHash order.hash]

/-- Specification helper: the first failing response of a list of check
results, or the plain valid response when none fails. -/
def firstFailure (rs : List OrderValidationResponse) : OrderValidationResponse :=
  (rs.find? (fun r => !r.valid)).getD { valid := true }

/-- Specification helper: the five per-output check results of one output, in
source order (token, recipient, startAmount, endAmount, endAmount ≤
startAmount). -/
def outputChecks (v : OrderValidator) (o : DutchOutput) :
    List OrderValidationResponse :=
  [match v.fieldValidator.isValidEthAddress o.token with
   | some _ => { valid := false, errorString := some ("Invalid output token " ++ o.token) }
   | none => { valid := true },
   match v.fieldValidator.isValidEthAddress o.recipient with
   | some _ => { valid := false, errorString := some ("Invalid recipient " ++ o.recipient) }
   | none => { valid := true },
   if !OrderValidator.isValidUint256 o.startAmount then
     { valid := false, errorString := some ("Invalid startAmount " ++ toString o.startAmount) }
   else { valid := true },
   if !OrderValidator.isValidUint256 o.endAmount then
     { valid := false, errorString := some ("Invalid endAmount " ++ toString o.endAmount) }
   else { valid := true },
   if o.endAmount > o.startAmount then
     { valid := false, errorString := some "Invalid endAmount > startAmount" }
   else { valid := true }]

/-! ## Validator theorems -/

theorem firstFailure_cons (r : OrderValidationResponse)
    (rs : List OrderValidationResponse) :
    firstFailure (r :: rs) = if r.valid then firstFailure rs else r := by
  unfold firstFailure
  cases h : r.valid <;> simp [List.find?_cons, h]

theorem validateOutputs_eq_firstFailure (v : OrderValidator)
    (os : List DutchOutput) :
    v.validateOutputs os = firstFailure (os.flatMap (outputChecks v)) := by
  induction os with
  | nil => rfl
  | cons o rest ih =>
    rw [List.flatMap_cons]
    have hoc : outputChecks v o ++ rest.flatMap (outputChecks v) =
        (match v.fieldValidator.isValidEthAddress o.token with
         | some _ =>
           { valid := false, errorString := some ("Invalid output token " ++ o.token) }
         | none => ({ valid := true } : OrderValidationResponse)) ::
        (match v.fieldValidator.isValidEthAddress o.recipient with
         | some _ =>
           { valid := false, errorString := some ("Invalid recipient " ++ o.recipient) }
         | none => ({ valid := true } : OrderValidationResponse)) ::
        (if !OrderValidator.isValidUint256 o.startAmount then
           { valid := false,
             errorString := some ("Invalid startAmount " ++ toString o.startAmount) }
         else ({ valid := true } : OrderValidationResponse)) ::
        (if !OrderValidator.isValidUint256 o.endAmount then
           { valid := false,
             errorString := some ("Invalid endAmount " ++ toString o.endAmount) }
         else ({ valid := true } : OrderValidationResponse)) ::
        (if o.endAmount > o.startAmount then
           { valid := false, errorString := some "Invalid endAmount > startAmount" }
         else ({ valid := true } : OrderValidationResponse)) ::
        rest.flatMap (outputChecks v) := by
      rw [outputChecks]
      cases v.fieldValidator.isValidEthAddress o.token <;> rfl
    rw [hoc]
    show OrderValidator.validateOutputs v (o :: rest) = _
    rw [OrderValidator.validateOutputs]
    cases htok : v.fieldValidator.isValidEthAddress o.token with
    | some e => simp [firstFailure_cons]
    | none =>
      cases hrec : v.fieldValidator.isValidEthAddress o.recipient with
      | some e => simp [firstFailure_cons]
      | none =>
        by_cases hsa : OrderValidator.isValidUint256 o.startAmount = true
        · by_cases hea : OrderValidator.isValidUint256 o.endAmount = true
          · by_cases hgt : o.endAmount > o.startAmount
            · simp [firstFailure_cons, hsa, hea, hgt]
            · simp [firstFailure_cons, hsa, hea, hgt, ih]
          · simp [firstFailure_cons, hsa, Bool.not_eq_true, hea]
        · simp [firstFailure_cons, Bool.not_eq_true, hsa]

theorem validateStep (r rest1 rest2 : OrderValidationResponse)
    (h : rest1 = rest2) :
    (if !r.valid then r else rest1) = (if r.valid then rest2 else r) := by
  cases hr : r.valid <;> simp [hr, h]

theorem validate_eq_firstFailure (v : OrderValidator) (o : DutchLimitOrder) :
    v.validate o = firstFailure (v.checkList o) := by
  simp only [OrderValidator.validate, OrderValidator.checkList, firstFailure_cons]
  exact validateStep _ _ _ (validateStep _ _ _ (validateStep _ _ _ (validateStep _ _ _
    (validateStep _ _ _ (validateStep _ _ _ (validateStep _ _ _ (validateStep _ _ _
      (validateStep _ _ _ rfl))))))))

/-- C5: for every candidate order, `validate` runs its checks in the order
deadline, startTime, nonce, offerer, reactor, input token, input amount,
outputs, hash, short-circuiting so that the result is the failure of the first
failing check (or the valid response with no reason string when all pass); and
within the outputs check each output is checked in list order (token,
recipient, startAmount, endAmount, endAmount ≤ startAmount), the first failing
output check aborting the whole outputs validation with that error. -/
theorem validate_first_failure_wins (v : OrderValidator) (o : DutchLimitOrder)
    (os : List DutchOutput) :
    v.validate o = firstFailure (v.checkList o) ∧
    v.validateOutputs os = firstFailure (os.flatMap (outputChecks v)) :=
  ⟨validate_eq_firstFailure v o, validateOutputs_eq_firstFailure v os⟩

/-- C6: `validate` fails with the "Insufficient Deadline" reason whenever
`deadline < now + minOffset`, fails with the one-year-bound reason whenever
`deadline > now + ONE_YEAR_IN_SECONDS` (hence at `deadline = now + 366 days`),
fails whenever `startTime > deadline` regardless of deadline validity, and an
order passing these three comparisons passes the deadline and startTime
gates. -/
theorem validate_deadline_startTime_gates (v : OrderValidator)
    (o : DutchLimitOrder) (hmo : v.minOffset ≤ ONE_YEAR_IN_SECONDS) :
    (o.info.deadline < v.getCurrentTime + v.minOffset →
      v.validate o = { valid := false, errorString := some "Insufficient Deadline" }) ∧
    (o.info.deadline > v.getCurrentTime + ONE_YEAR_IN_SECONDS →
      v.validate o =
        { valid := false,
          errorString :=
            some "Deadline field invalid: Order expiry cannot be larger than one year" }) ∧
    (o.info.startTime > o.info.deadline → (v.validate o).valid = false) ∧
    (v.getCurrentTime + v.minOffset ≤ o.info.deadline →
      o.info.deadline ≤ v.getCurrentTime + ONE_YEAR_IN_SECONDS →
      o.info.startTime ≤ o.info.deadline →
      (v.validateDeadline o.info.deadline).valid = true ∧
      (OrderValidator.validateStartTime o.info.startTime o.info.deadline).valid
        = true) := by
  refine ⟨?_, ?_, ?_, ?_⟩
  · intro h
    simp [OrderValidator.validate, OrderValidator.validateDeadline, h]
  · intro h
    have h1 : ¬(o.info.deadline < v.getCurrentTime + v.minOffset) := by omega
    simp [OrderValidator.validate, OrderValidator.validateDeadline, h, h1]
  · intro h
    simp only [OrderValidator.validate]
    cases hd : (v.validateDeadline o.info.deadline).valid
    · simp [hd]
    · simp [hd, OrderValidator.validateStartTime, h]
  · intro h1 h2 h3
    constructor
    · simp only [OrderValidator.validateDeadline]
      rw [if_neg (by omega), if_neg (by omega)]
    · simp only [OrderValidator.validateStartTime]
      rw [if_neg (by omega)]

/-- Field validator that accepts every field; used to build concrete
validator instances in witnesses. -/
def trivialFieldValidator : FieldValidator where
  isValidEthAddress := fun _ => none
  isValidNonce := fun _ => none
  isValidOrderHash := fun _ => none

/-- Concrete validator instance: clock fixed at 1000, default minOffset 60. -/
def sampleValidator : OrderValidator where
  fieldValidator := trivialFieldValidator
  getCurrentTime := 1000

/-- Concrete order whose deadline misses the minimum offset. -/
def sampleLateOrder : DutchLimitOrder where
  info :=
    { deadline := 1030
      startTime := 0
      nonce := 1
      offerer := "0xofferer"
      reactor := "0xreactor"
      input := { token := "0xtoken", amount := 1 }
      outputs := [] }
  hash := "0xhash"

/-- Witness for C6 at a concrete validator and order: deadline 1030 is below
now + minOffset = 1060, so validation fails with "Insufficient Deadline". -/
theorem validate_deadline_startTime_gates_witness :
    sampleValidator.validate sampleLateOrder =
      { valid := false, errorString := some "Insufficient Deadline" } :=
  (validate_deadline_startTime_gates sampleValidator sampleLateOrder
    (by decide)).1 (by decide)

/-! ## Order entity and write operations
(`lib/repositories/generic-orders-repository.ts`) -/

/-- Entity-level settled amount entry (`SettledAmount` from `lib/entities`,
absent from the snapshot; shape irrelevant to the repository logic). -/
structure SettledAmount where
  token : String
  amount : String
deriving DecidableEq, Repr

/-- Entity-level order input (token plus decaying amounts, kept as opaque
strings as in the stored representation). -/
structure OrderInputEntity where
  token : String
  startAmount : String
  endAmount : String
deriving DecidableEq, Repr

/-- Entity-level order output. -/
structure OrderOutputEntity where
  token : String
  startAmount : String
  endAmount : String
  recipient : String
deriving DecidableEq, Repr

/-- Embeds the stored `OrderEntity`: primary fields, payload fields, the seven
denormalized composite attributes (optional: absent until written by the
repository) and the optional status-transition fields. -/
structure OrderEntity where
  orderHash : String
  offerer : String
  filler : String
  orderStatus : String
  chainId : Nat
  nonce : String
  signature : String
  encodedOrder : String
  orderType : String
  reactor : String
  decayStartTime : Nat
  decayEndTime : Nat
  deadline : Nat
  input : OrderInputEntity
  outputs : List OrderOutputEntity
  createdAt : Nat
  offerer_orderStatus : Option String := none
  filler_orderStatus : Option String := none
  filler_offerer : Option String := none
  chainId_filler : Option String := none
  chainId_orderStatus : Option String := none
  chainId_orderStatus_filler : Option String := none
  filler_offerer_orderStatus : Option String := none
  txHash : Option String := none
  settledAmounts : Option (List SettledAmount) := none
deriving DecidableEq, Repr

/-- The nonce-table record written by the transaction:
`{ offerer: offerer-chainId, nonce }`. -/
structure NonceUpdate where
  offerer : String
  nonce : String
deriving DecidableEq, Repr

/-- Embeds `putOrderAndUpdateNonceTransaction`: the order item written by the
transaction (spread of the caller's order, the seven composite attributes, and
`createdAt` overwritten with the write-time clock `currentTimestampInSeconds()`,
passed here as `now` since `util/time` is an external clock), paired with the
nonce update record. -/
def putOrderAndUpdateNonceTransaction (now : Nat) (order : OrderEntity) :
    OrderEntity × NonceUpdate :=
  ({ order with
      offerer_orderStatus := some (order.offerer ++ "_" ++ order.orderStatus)
      filler_orderStatus := some (order.filler ++ "_" ++ order.orderStatus)
      filler_offerer := some (order.filler ++ "_" ++ order.offerer)
      chainId_filler := some (toString order.chainId ++ "_" ++ order.filler)
      chainId_orderStatus := some (toString order.chainId ++ "_" ++ order.orderStatus)
      chainId_orderStatus_filler :=
        some (toString order.chainId ++ "_" ++ order.orderStatus ++ "_" ++ order.filler)
      filler_offerer_orderStatus :=
        some (order.filler ++ "_" ++ order.offerer ++ "_" ++ order.orderStatus)
      createdAt := now },
   { offerer := order.offerer ++ "-" ++ toString order.chainId
     nonce := order.nonce })

/-- Embeds the `entity.update` call of `updateOrderStatus`, applied to the
stored order fetched by hash: the new status, the five status-bearing
composites recomputed from the fetched `offerer`, `filler` and `chainId`, and
`txHash`/`settledAmounts` merged in only when supplied (DynamoDB `update`
leaves unnamed attributes unchanged). -/
def applyUpdateOrderStatus (order : OrderEntity) (status : String)
    (txHash : Option String) (settledAmounts : Option (List SettledAmount)) :
    OrderEntity :=
  { order with
    orderStatus := status
    offerer_orderStatus := some (order.offerer ++ "_" ++ status)
    filler_orderStatus := some (order.filler ++ "_" ++ status)
    filler_offerer_orderStatus :=
      some (order.filler ++ "_" ++ order.offerer ++ "_" ++ status)
    chainId_orderStatus := some (toString order.chainId ++ "_" ++ status)
    chainId_orderStatus_filler :=
      some (toString order.chainId ++ "_" ++ status ++ "_" ++ order.filler)
    txHash := match txHash with | some t => some t | none => order.txHash
    settledAmounts :=
      match settledAmounts with | some s => some s | none => order.settledAmounts }

/-- All seven denormalized composite attributes agree with the primary fields
they are derived from. -/
def compositesConsistent (o : OrderEntity) : Prop :=
  o.offerer_orderStatus = some (o.offerer ++ "_" ++ o.orderStatus) ∧
  o.filler_orderStatus = some (o.filler ++ "_" ++ o.orderStatus) ∧
  o.filler_offerer = some (o.filler ++ "_" ++ o.offerer) ∧
  o.chainId_filler = some (toString o.chainId ++ "_" ++ o.filler) ∧
  o.chainId_orderStatus = some (toString o.chainId ++ "_" ++ o.orderStatus) ∧
  o.chainId_orderStatus_filler =
    some (toString o.chainId ++ "_" ++ o.orderStatus ++ "_" ++ o.filler) ∧
  o.filler_offerer_orderStatus =
    some (o.filler ++ "_" ++ o.offerer ++ "_" ++ o.orderStatus)

instance (o : OrderEntity) : Decidable (compositesConsistent o) := by
  unfold compositesConsistent
  infer_instance

/-- C4: the transactional put stores all seven composites consistent with the
stored primary fields, and a status update recomputes every status-bearing
composite with the new status while the composites not involving the status
still agree with the unchanged `offerer`, `filler` and `chainId` fields
(assuming the fetched order was itself consistent, as every write leaves it). -/
theorem writes_keep_composites_consistent (now : Nat) (order : OrderEntity)
    (status : String) (txHash : Option String)
    (settledAmounts : Option (List SettledAmount))
    (h : compositesConsistent order) :
    compositesConsistent (putOrderAndUpdateNonceTransaction now order).1 ∧
    compositesConsistent (applyUpdateOrderStatus order status txHash settledAmounts) ∧
    (applyUpdateOrderStatus order status txHash settledAmounts).orderStatus = status ∧
    (applyUpdateOrderStatus order status txHash settledAmounts).offerer = order.offerer ∧
    (applyUpdateOrderStatus order status txHash settledAmounts).filler = order.filler ∧
    (applyUpdateOrderStatus order status txHash settledAmounts).chainId = order.chainId := by
  obtain ⟨h1, h2, h3, h4, h5, h6, h7⟩ := h
  exact ⟨⟨rfl, rfl, rfl, rfl, rfl, rfl, rfl⟩,
    ⟨rfl, rfl, h3, h4, rfl, rfl, rfl⟩, rfl, rfl, rfl, rfl⟩

/-- Concrete order entity used by the write-operation witnesses. -/
def sampleOrderEntity : OrderEntity where
  orderHash := "0xa2444e"
  offerer := "0xOfferer"
  filler := "0xFiller"
  orderStatus := "open"
  chainId := 1
  nonce := "42"
  signature := "0xsig"
  encodedOrder := "0xencoded"
  orderType := "Dutch"
  reactor := "0xReactor"
  decayStartTime := 1
  decayEndTime := 2
  deadline := 3
  input := { token := "0xin", startAmount := "1", endAmount := "1" }
  outputs := []
  createdAt := 99

/-- Witness for C4: the entity just written for `sampleOrderEntity` is
consistent, and updating its status to "filled" keeps all seven composites
consistent. -/
theorem writes_keep_composites_consistent_witness :
    compositesConsistent
      (applyUpdateOrderStatus (putOrderAndUpdateNonceTransaction 1000 sampleOrderEntity).1
        "filled" none none) :=
  (writes_keep_composites_consistent 1000
    (putOrderAndUpdateNonceTransaction 1000 sampleOrderEntity).1 "filled" none none
    (by decide)).2.1

/-- C10: the put transaction overwrites `createdAt` with the write-time clock
value, stores every other caller-supplied field unchanged, adds the seven
composite attributes, and writes the nonce record keyed
`offerer-chainId` with the order's nonce. -/
theorem put_overwrites_createdAt_frames_rest (now : Nat) (order : OrderEntity) :
    (putOrderAndUpdateNonceTransaction now order).1.createdAt = now ∧
    (putOrderAndUpdateNonceTransaction now order).1.orderHash = order.orderHash ∧
    (putOrderAndUpdateNonceTransaction now order).1.offerer = order.offerer ∧
    (putOrderAndUpdateNonceTransaction now order).1.filler = order.filler ∧
    (putOrderAndUpdateNonceTransaction now order).1.orderStatus = order.orderStatus ∧
    (putOrderAndUpdateNonceTransaction now order).1.chainId = order.chainId ∧
    (putOrderAndUpdateNonceTransaction now order).1.nonce = order.nonce ∧
    (putOrderAndUpdateNonceTransaction now order).1.signature = order.signature ∧
    (putOrderAndUpdateNonceTransaction now order).1.encodedOrder = order.encodedOrder ∧
    (putOrderAndUpdateNonceTransaction now order).1.orderType = order.orderType ∧
    (putOrderAndUpdateNonceTransaction now order).1.reactor = order.reactor ∧
    (putOrderAndUpdateNonceTransaction now order).1.decayStartTime = order.decayStartTime ∧
    (putOrderAndUpdateNonceTransaction now order).1.decayEndTime = order.decayEndTime ∧
    (putOrderAndUpdateNonceTransaction now order).1.deadline = order.deadline ∧
    (putOrderAndUpdateNonceTransaction now order).1.input = order.input ∧
    (putOrderAndUpdateNonceTransaction now order).1.outputs = order.outputs ∧
    (putOrderAndUpdateNonceTransaction now order).1.txHash = order.txHash ∧
    (putOrderAndUpdateNonceTransaction now order).1.settledAmounts = order.settledAmounts ∧
    compositesConsistent (putOrderAndUpdateNonceTransaction now order).1 ∧
    (putOrderAndUpdateNonceTransaction now order).2 =
      { offerer := order.offerer ++ "-" ++ toString order.chainId
        nonce := order.nonce } :=
  ⟨rfl, rfl, rfl, rfl, rfl, rfl, rfl, rfl, rfl, rfl, rfl, rfl, rfl, rfl, rfl,
   rfl, rfl, rfl, ⟨rfl, rfl, rfl, rfl, rfl, rfl, rfl⟩, rfl⟩

/-! ## Cursor codec
The repository serializes a DynamoDB continuation key with
`encode(JSON.stringify(key))` and reads it back with
`JSON.parse(decode(cursor))` (`util/encryption` is absent from the snapshot).
Per the spec this pair is a reversible, non-cryptographic
serialize-then-encode transform, modelled here by an executable
escape-and-join serialization of the key's attribute pairs with a partial
inverse; strings outside the serializer's range model cursor strings that
fail to decode or parse as structured data. -/

/-- A continuation key ("LastEvaluatedKey"): attribute names paired with their
(stringified) values. -/
abbrev ContinuationKey := List (String × String)

/-- Modelled from the spec: escape one payload character of the serialized
cursor. -/
def escapeChar (c : Char) : List Char :=
  if c = '\\' || c = '|' then ['\\', c] else [c]

/-- Modelled from the spec: serialize the flattened name/value fields,
separated by an unescaped bar. -/
def encodeFields : List String → List Char
  | [] => []
  | [s] => s.data.flatMap escapeChar
  | s :: rest => s.data.flatMap escapeChar ++ '|' :: encodeFields rest

/-- Modelled from the spec: `encode(JSON.stringify(key))`, the reversible
serialization of a continuation key. -/
def encode (k : ContinuationKey) : String :=
  String.mk (encodeFields (k.flatMap (fun p => [p.1, p.2])))

/-- Modelled from the spec: split the serialized cursor back into fields,
failing on a dangling escape. -/
def splitFieldsAux : List Char → List Char → Option (List String)
  | [], acc => some [String.mk acc.reverse]
  | c :: rest, acc =>
    if c = '\\' then
      match rest with
      | [] => none
      | d :: rest2 => splitFieldsAux rest2 (d :: acc)
    else if c = '|' then
      (splitFieldsAux rest []).map (fun fs => String.mk acc.reverse :: fs)
    else
      splitFieldsAux rest (c :: acc)

/-- Modelled from the spec: group the parsed fields back into name/value
pairs, failing on an odd field count. -/
def pairUp : List String → Option ContinuationKey
  | [] => some []
  | [_] => none
  | a :: b :: rest => (pairUp rest).map (fun ps => (a, b) :: ps)

/-- Modelled from the spec: `JSON.parse(decode(cursor))`, the partial inverse
of `encode`; `none` models the parse failure caught by `getStartKey`. -/
def decodeParse (s : String) : Option ContinuationKey :=
  (splitFieldsAux s.data []).bind pairUp

theorem string_mk_data (s : String) : String.mk s.data = s := rfl

theorem splitFieldsAux_nil (acc : List Char) :
    splitFieldsAux [] acc = some [String.mk acc.reverse] := rfl

theorem splitFieldsAux_esc (d : Char) (rest acc : List Char) :
    splitFieldsAux ('\\' :: d :: rest) acc = splitFieldsAux rest (d :: acc) := rfl

theorem splitFieldsAux_bar (rest acc : List Char) :
    splitFieldsAux ('|' :: rest) acc
      = (splitFieldsAux rest []).map (fun fs => String.mk acc.reverse :: fs) := by
  have h1 : ('|' : Char) ≠ '\\' := by decide
  rw [splitFieldsAux.eq_def]
  simp [h1]

theorem splitFieldsAux_other (c : Char) (rest acc : List Char)
    (h1 : c ≠ '\\') (h2 : c ≠ '|') :
    splitFieldsAux (c :: rest) acc = splitFieldsAux rest (c :: acc) := by
  rw [splitFieldsAux.eq_def]
  simp [h1, h2]

theorem splitFieldsAux_escape (cs : List Char) (rest acc : List Char) :
    splitFieldsAux (cs.flatMap escapeChar ++ rest) acc
      = splitFieldsAux rest (cs.reverse ++ acc) := by
  induction cs generalizing acc with
  | nil => simp
  | cons c cs ih =>
    by_cases h : c = '\\' ∨ c = '|'
    · have he : escapeChar c = ['\\', c] := by
        unfold escapeChar
        rcases h with h | h <;> simp [h]
      rw [List.flatMap_cons, he]
      show splitFieldsAux ('\\' :: c :: (cs.flatMap escapeChar ++ rest)) acc = _
      rw [splitFieldsAux_esc, ih]
      simp [List.append_assoc]
    · push_neg at h
      have he : escapeChar c = [c] := by
        unfold escapeChar
        simp [h.1, h.2]
      rw [List.flatMap_cons, he]
      show splitFieldsAux (c :: (cs.flatMap escapeChar ++ rest)) acc = _
      rw [splitFieldsAux_other c _ _ h.1 h.2, ih]
      simp [List.append_assoc]

theorem splitFieldsAux_encodeFields (fields : List String) (h : fields ≠ []) :
    splitFieldsAux (encodeFields fields) [] = some fields := by
  induction fields with
  | nil => exact absurd rfl h
  | cons s rest ih =>
    cases rest with
    | nil =>
      show splitFieldsAux (s.data.flatMap escapeChar) [] = some [s]
      have h2 := splitFieldsAux_escape s.data [] []
      rw [List.append_nil] at h2
      rw [h2, splitFieldsAux_nil]
      simp [string_mk_data]
    | cons t rest2 =>
      show splitFieldsAux
        (s.data.flatMap escapeChar ++ '|' :: encodeFields (t :: rest2)) []
          = some (s :: t :: rest2)
      rw [splitFieldsAux_escape, splitFieldsAux_bar, ih (by simp)]
      simp [string_mk_data]

theorem pairUp_flatMap (k : ContinuationKey) :
    pairUp (k.flatMap (fun q => [q.1, q.2])) = some k := by
  induction k with
  | nil => rfl
  | cons p rest ih =>
    show (pairUp (rest.flatMap fun q => [q.1, q.2])).map (fun ps => (p.1, p.2) :: ps)
        = some (p :: rest)
    rw [ih]
    rfl

theorem decodeParse_encode (k : ContinuationKey) (h : k ≠ []) :
    decodeParse (encode k) = some k := by
  obtain ⟨p, rest, rfl⟩ : ∃ p rest, k = p :: rest := by
    cases k with
    | nil => exact absurd rfl h
    | cons p rest => exact ⟨p, rest, rfl⟩
  unfold decodeParse encode
  rw [show (String.mk (encodeFields ((p :: rest).flatMap fun q => [q.1, q.2]))).data
      = encodeFields ((p :: rest).flatMap fun q => [q.1, q.2]) from rfl]
  rw [splitFieldsAux_encodeFields _ (by simp [List.flatMap_cons])]
  exact pairUp_flatMap (p :: rest)

/-! ## Cursor validation (`getStartKey`) -/

/-- Embeds the JS `string.split(sep)` for a single-character separator
(structurally recursive so concrete instances compute). -/
def splitCharAux (sep : Char) : List Char → List Char → List String
  | [], acc => [String.mk acc.reverse]
  | c :: rest, acc =>
    if c = sep then String.mk acc.reverse :: splitCharAux sep rest []
    else splitCharAux sep rest (c :: acc)

/-- Embeds the JS `string.split(sep)` on a string. -/
def jsSplit (sep : Char) (s : String) : List String :=
  splitCharAux sep s.data []

/-- The attribute names usable as table/index key components (`TABLE_KEY` from
`lib/config/dynamodb`, absent from the snapshot).  Modelled from the spec's
data model: the primary key `orderHash`, the four dimension attributes, the
default chronological sort attribute `createdAt` (as in the index literal
`offerer_orderStatus-createdAt-all` the repository queries), and the seven
composite attribute names it maintains on every write. -/
def TABLE_KEY_values : List String :=
  ["orderHash", "offerer", "filler", "orderStatus", "chainId", "createdAt",
   "offerer_orderStatus", "filler_orderStatus", "filler_offerer",
   "chainId_filler", "chainId_orderStatus", "chainId_orderStatus_filler",
   "filler_offerer_orderStatus"]

/-- The valid cursor key list `getStartKey` builds for an index: the primary
key `orderHash` followed by the index-name components that are table key
attributes (and truthy, i.e. nonempty). -/
def expectedCursorKeys (index : Option String) : List String :=
  "orderHash" ::
    ((((index.map (jsSplit '-')).getD []).filter
      (fun k => TABLE_KEY_values.contains k)).filter (fun k => decide (k ≠ "")))

/-- Embeds `getStartKey`: parse the cursor (`JSON.parse(decode(cursor))`,
failing as "Invalid cursor."), then reject it unless its key names match the
valid key list of the target index in count and membership. -/
def getStartKey (cursor : String) (index : Option String) :
    Except String ContinuationKey :=
  match decodeParse cursor with
  | none => Except.error "Invalid cursor."
  | some lastEvaluatedKey =>
    let keys := lastEvaluatedKey.map Prod.fst
    let validKeys := expectedCursorKeys index
    if keys.length != validKeys.length
        || !(keys.all (fun k => validKeys.contains k)) then
      Except.error "Invalid cursor."
    else
      Except.ok lastEvaluatedKey

theorem getStartKey_encode (k : ContinuationKey) (h : k ≠ [])
    (index : Option String) :
    getStartKey (encode k) index =
      (if (k.map Prod.fst).length != (expectedCursorKeys index).length
          || !((k.map Prod.fst).all (fun s => (expectedCursorKeys index).contains s)) then
        Except.error "Invalid cursor."
      else
        Except.ok k) := by
  unfold getStartKey
  rw [decodeParse_encode k h]

/-! ## Comparison filter and range-query construction -/

/-- A parsed comparison filter: operator name plus operand list
(`ComparisonFilter` from `util/comparison`, absent from the snapshot). -/
structure ComparisonFilter where
  operator : String
  values : List Nat
deriving DecidableEq, Repr

/-- Digit-string to number, `none` on empty or non-digit input. -/
def strToNat (s : String) : Option Nat :=
  if s.data ≠ [] ∧ s.data.all Char.isDigit then
    some (s.data.foldl (fun n c => n * 10 + (c.toNat - 48)) 0)
  else none

/-- Modelled from the spec: `parseComparisonFilter` (`util/comparison` is
absent from the snapshot).  An absent expression is valid and means no range
restriction; otherwise the expression must be `op(value[,value])` with `op`
one of eq, lt, lte, gt, gte, between (exactly two operands for `between`, one
otherwise); anything else fails with an invalid-filter-expression error. -/
def parseComparisonFilter : Option String → Except String (Option ComparisonFilter)
  | none => Except.ok none
  | some s =>
    match jsSplit '(' s with
    | [op, rest] =>
      if ["eq", "lt", "lte", "gt", "gte", "between"].contains op then
        match rest.data.getLast? with
        | some ')' =>
          let args := (String.mk rest.data.dropLast).data  -- argument characters
          match (splitCharAux ',' args []).mapM strToNat with
          | none => Except.error "Invalid filter expression."
          | some vals =>
            if (op == "between" && vals.length == 2)
                || (op != "between" && vals.length == 1) then
              Except.ok (some { operator := op, values := vals })
            else Except.error "Invalid filter expression."
        | _ => Except.error "Invalid filter expression."
      else Except.error "Invalid filter expression."
    | _ => Except.error "Invalid filter expression."

/-- Embeds `MAX_ORDERS = 50`. -/
def MAX_ORDERS : Nat := 50

/-- The parameters of the indexed range query handed to the store by
`queryOrderEntity` (`entity.query`): partition key, formatted index name,
effective limit, and the optional comparison entry with its scan direction
(spread into the call only when both a sort key and a parsed comparison are
present), plus the optional decoded start key. -/
structure StoreQuery where
  partitionKey : String
  index : String
  limit : Nat
  comparison : Option ComparisonFilter := none
  reverse : Option Bool := none
  startKey : Option ContinuationKey := none
deriving DecidableEq, Repr

/-- Embeds the limit expression of `queryOrderEntity`:
`limit ? Math.min(limit, MAX_ORDERS) : MAX_ORDERS` (0 and `undefined` are
falsy). -/
def effectiveLimit (limit : Option Nat) : Nat :=
  match limit with
  | none => MAX_ORDERS
  | some 0 => MAX_ORDERS
  | some l => min l MAX_ORDERS

/-- Embeds `queryOrderEntity`: parse the comparison only when a sort key is
present, format the index as `index-(sortKey ?? createdAt)-all`, decode and
validate the cursor against that index, clamp the limit, and spread
`reverse: desc` (desc defaulting to true) only alongside a parsed
comparison. -/
def queryOrderEntity (partitionKey : String) (index : String)
    (limit : Option Nat) (cursor : Option String) (sortKey : Option String)
    (sort : Option String) (desc : Option Bool) : Except String StoreQuery :=
  match (if sortKey.isSome then parseComparisonFilter sort else Except.ok none) with
  | Except.error e => Except.error e
  | Except.ok comparison =>
    let formattedIndex := index ++ "-" ++ (sortKey.getD "createdAt") ++ "-all"
    match (match cursor with
           | none => Except.ok none
           | some c =>
             match getStartKey c (some formattedIndex) with
             | Except.error e => Except.error e
             | Except.ok k => Except.ok (some k)) with
    | Except.error e => Except.error e
    | Except.ok startKey =>
      Except.ok
        { partitionKey := partitionKey
          index := formattedIndex
          limit := effectiveLimit limit
          comparison := comparison
          reverse := match comparison with
            | some _ => some (desc.getD true)
            | none => none
          startKey := startKey }

/-! ## Query routing (`getOrders`) -/

/-- Embeds `GetOrdersQueryParams`: the recognized query dimensions
(`orderHash`, `orderHashes`, `offerer`, `orderStatus`, `filler`, `chainId`)
plus the modifier keys (`sortKey`, `sort`, `desc`); `none` models an absent
key.  The key enumeration follows the spec's query filter set (the schema
module is absent from the snapshot). -/
structure GetOrdersQueryParams where
  orderHash : Option String := none
  orderHashes : Option (List String) := none
  offerer : Option String := none
  orderStatus : Option String := none
  filler : Option String := none
  chainId : Option Nat := none
  sortKey : Option String := none
  sort : Option String := none
  desc : Option Bool := none
deriving DecidableEq, Repr

/-- The key name contributed to `Object.keys` by one possibly-absent filter. -/
def optKey {α : Type} (name : String) (o : Option α) : List String :=
  if o.isSome then [name] else []

/-- Embeds `getRequestedParams`: the present filter keys minus the modifier
keys `sortKey`, `sort` and `desc`.  (`Object.keys` returns the request's JS
insertion order; a fixed order is used here — every consumer is
order-insensitive: `areParamsRequested` checks only length and membership and
the orderHash/orderHashes branches only membership.) -/
def getRequestedParams (q : GetOrdersQueryParams) : List String :=
  optKey "orderHash" q.orderHash ++ optKey "orderHashes" q.orderHashes ++
    optKey "offerer" q.offerer ++ optKey "orderStatus" q.orderStatus ++
    optKey "filler" q.filler ++ optKey "chainId" q.chainId

/-- Embeds `areParamsRequested`: the requested list has the template's length
and every template dimension is requested. -/
def areParamsRequested (queryParams requestedParams : List String) : Bool :=
  requestedParams.length == queryParams.length &&
    queryParams.all (fun f => requestedParams.contains f)

/-- JS template-literal stringification of a possibly-absent string filter
value (`undefined` interpolates as "undefined"). -/
def jsStr : Option String → String
  | some s => s
  | none => "undefined"

/-- JS template-literal stringification of the numeric chainId filter. -/
def jsNat : Option Nat → String
  | some n => toString n
  | none => "undefined"

/-- Join of partition-key pieces with the fixed underscore delimiter, as in
the template literals of `getOrders`. -/
def joinUnderscore : List String → String
  | [] => ""
  | [s] => s
  | s :: rest => s ++ "_" ++ joinUnderscore rest

/-- The store action `getOrders` resolves to: an indexed range query, a
primary-key point lookup, or a primary-key batch lookup. -/
inductive RouteResult where
  | rangeQuery (q : StoreQuery)
  | pointGet (orderHash : String)
  | batchGet (orderHashes : List String)
deriving DecidableEq, Repr

/-- Embeds `getOrders`: the `switch (true)` chain over the requested
dimension combinations, in source order. -/
def getOrders (limit : Option Nat) (q : GetOrdersQueryParams)
    (cursor : Option String) : Except String RouteResult :=
  let requestedParams := getRequestedParams q
  if areParamsRequested ["filler", "offerer", "orderStatus"] requestedParams then
    (queryOrderEntity (joinUnderscore [jsStr q.filler, jsStr q.offerer, jsStr q.orderStatus])
      "filler_offerer_orderStatus" limit cursor q.sortKey q.sort q.desc).map
      RouteResult.rangeQuery
  else if areParamsRequested ["chainId", "filler"] requestedParams then
    (queryOrderEntity (joinUnderscore [jsNat q.chainId, jsStr q.filler])
      "chainId_filler" limit cursor q.sortKey q.sort q.desc).map
      RouteResult.rangeQuery
  else if areParamsRequested ["chainId", "orderStatus"] requestedParams then
    (queryOrderEntity (joinUnderscore [jsNat q.chainId, jsStr q.orderStatus])
      "chainId_orderStatus" limit cursor q.sortKey q.sort q.desc).map
      RouteResult.rangeQuery
  else if areParamsRequested ["chainId", "orderStatus", "filler"] requestedParams then
    (queryOrderEntity (joinUnderscore [jsNat q.chainId, jsStr q.orderStatus, jsStr q.filler])
      "chainId_orderStatus_filler" limit cursor q.sortKey q.sort q.desc).map
      RouteResult.rangeQuery
  else if areParamsRequested ["filler", "orderStatus"] requestedParams then
    (queryOrderEntity (joinUnderscore [jsStr q.filler, jsStr q.orderStatus])
      "filler_orderStatus" limit cursor q.sortKey q.sort q.desc).map
      RouteResult.rangeQuery
  else if areParamsRequested ["filler", "offerer"] requestedParams then
    (queryOrderEntity (joinUnderscore [jsStr q.filler, jsStr q.offerer])
      "filler_offerer" limit cursor q.sortKey q.sort q.desc).map
      RouteResult.rangeQuery
  else if areParamsRequested ["offerer", "orderStatus"] requestedParams then
    (queryOrderEntity (joinUnderscore [jsStr q.offerer, jsStr q.orderStatus])
      "offerer_orderStatus" limit cursor q.sortKey q.sort q.desc).map
      RouteResult.rangeQuery
  else if requestedParams.contains "orderHash" then
    Except.ok (RouteResult.pointGet (jsStr q.orderHash))
  else if requestedParams.contains "orderHashes" then
    Except.ok (RouteResult.batchGet (q.orderHashes.getD []))
  else if areParamsRequested ["offerer"] requestedParams then
    (queryOrderEntity (jsStr q.offerer) "offerer" limit cursor
      q.sortKey q.sort q.desc).map RouteResult.rangeQuery
  else if areParamsRequested ["orderStatus"] requestedParams then
    (queryOrderEntity (jsStr q.orderStatus) "orderStatus" limit cursor
      q.sortKey q.sort q.desc).map RouteResult.rangeQuery
  else if areParamsRequested ["filler"] requestedParams then
    (queryOrderEntity (jsStr q.filler) "filler" limit cursor
      q.sortKey q.sort q.desc).map RouteResult.rangeQuery
  else if areParamsRequested ["chainId"] requestedParams then
    (queryOrderEntity (jsNat q.chainId) "chainId" limit cursor
      q.sortKey q.sort q.desc).map RouteResult.rangeQuery
  else
    Except.error
      "Invalid query, must query with one of the following params: [orderHash, orderHashes, chainId, orderStatus, swapper, filler]"

/-! ## Index catalog -/

/-- One dimension-set template: the exact requested-dimension set (listed in
canonical key-construction order) and the partition-attribute identifier of
the index it routes to. -/
structure Template where
  dims : List String
  indexId : String
deriving DecidableEq, Repr

/-- The dimension-set templates of the index catalog, in the order the
`switch` of `getOrders` tests them. -/
def catalog : List Template :=
  [⟨["filler", "offerer", "orderStatus"], "filler_offerer_orderStatus"⟩,
   ⟨["chainId", "filler"], "chainId_filler"⟩,
   ⟨["chainId", "orderStatus"], "chainId_orderStatus"⟩,
   ⟨["chainId", "orderStatus", "filler"], "chainId_orderStatus_filler"⟩,
   ⟨["filler", "orderStatus"], "filler_orderStatus"⟩,
   ⟨["filler", "offerer"], "filler_offerer"⟩,
   ⟨["offerer", "orderStatus"], "offerer_orderStatus"⟩,
   ⟨["offerer"], "offerer"⟩,
   ⟨["orderStatus"], "orderStatus"⟩,
   ⟨["filler"], "filler"⟩,
   ⟨["chainId"], "chainId"⟩]

/-- The value one dimension contributes to the partition key, stringified as
the source's template literals do. -/
def dimValue (q : GetOrdersQueryParams) (d : String) : String :=
  if d = "chainId" then jsNat q.chainId
  else if d = "offerer" then jsStr q.offerer
  else if d = "orderStatus" then jsStr q.orderStatus
  else if d = "filler" then jsStr q.filler
  else ""

set_option maxHeartbeats 2000000 in
theorem getOrders_routes_matching_template (t : Template) (ht : t ∈ catalog)
    (limit : Option Nat) (q : GetOrdersQueryParams) (cursor : Option String)
    (h : areParamsRequested t.dims (getRequestedParams q) = true) :
    getOrders limit q cursor =
      (queryOrderEntity (joinUnderscore (t.dims.map (dimValue q))) t.indexId
        limit cursor q.sortKey q.sort q.desc).map RouteResult.rangeQuery := by
  obtain ⟨oh, ohs, off, ost, fil, cid, sk, srt, dsc⟩ := q
  fin_cases ht <;>
    cases oh <;> cases ohs <;> cases off <;> cases ost <;> cases fil <;> cases cid <;>
      first
        | exact absurd h (fun hh => Bool.noConfusion hh)
        | rfl

theorem nodup_getRequestedParams (q : GetOrdersQueryParams) :
    (getRequestedParams q).Nodup := by
  obtain ⟨oh, ohs, off, ost, fil, cid, sk, srt, dsc⟩ := q
  cases oh <;> cases ohs <;> cases off <;> cases ost <;> cases fil <;> cases cid <;>
    exact of_decide_eq_true rfl

theorem areParamsRequested_length_ne (qp rp : List String)
    (h : rp.length ≠ qp.length) : areParamsRequested qp rp = false := by
  simp [areParamsRequested, h]

theorem strict_inclusion_no_match (t : Template) (ht : t ∈ catalog)
    (rp : List String) (hnd : rp.Nodup)
    (h : rp.toFinset ⊂ t.dims.toFinset ∨ t.dims.toFinset ⊂ rp.toFinset) :
    areParamsRequested t.dims rp = false := by
  have hdnd : t.dims.Nodup := by fin_cases ht <;> decide
  apply areParamsRequested_length_ne
  have h1 : rp.toFinset.card = rp.length := List.toFinset_card_of_nodup hnd
  have h2 : t.dims.toFinset.card = t.dims.length := List.toFinset_card_of_nodup hdnd
  rcases h with h | h <;> have := Finset.card_lt_card h <;> omega

/-- C1: for every supported dimension-set template, a filter set whose
requested dimension set (filter keys minus sortKey/sort/desc) equals the
template's dimension set routes to that template's index, with the partition
key joining the corresponding filter values in the template's canonical field
order; and a filter set whose requested dimensions are a strict subset or
strict superset of the template's dimension set never matches it. -/
theorem getOrders_exact_set_routing (t : Template) (ht : t ∈ catalog)
    (limit : Option Nat) (q : GetOrdersQueryParams) (cursor : Option String) :
    (areParamsRequested t.dims (getRequestedParams q) = true →
      getOrders limit q cursor =
        (queryOrderEntity (joinUnderscore (t.dims.map (dimValue q))) t.indexId
          limit cursor q.sortKey q.sort q.desc).map RouteResult.rangeQuery) ∧
    ((getRequestedParams q).toFinset ⊂ t.dims.toFinset ∨
        t.dims.toFinset ⊂ (getRequestedParams q).toFinset →
      areParamsRequested t.dims (getRequestedParams q) = false) :=
  ⟨getOrders_routes_matching_template t ht limit q cursor,
   strict_inclusion_no_match t ht (getRequestedParams q)
     (nodup_getRequestedParams q)⟩

/-- Concrete filter set requesting exactly the chainId and filler dimensions
(plus no modifiers). -/
def sampleChainFillerQuery : GetOrdersQueryParams :=
  { filler := some "0xFiller", chainId := some 1 }

/-- Witness for C1: the chainId+filler query routes to the `chainId_filler`
index with partition key "1_0xFiller", and the strict superset template
{chainId, orderStatus, filler} does not match it. -/
theorem getOrders_exact_set_routing_witness :
    getOrders (some 10) sampleChainFillerQuery none =
      (queryOrderEntity "1_0xFiller" "chainId_filler" (some 10) none none none
        none).map RouteResult.rangeQuery ∧
    areParamsRequested ["chainId", "orderStatus", "filler"]
      (getRequestedParams sampleChainFillerQuery) = false := by
  constructor
  · exact ((getOrders_exact_set_routing ⟨["chainId", "filler"], "chainId_filler"⟩
      (by decide) (some 10) sampleChainFillerQuery none).1 (by decide)).trans rfl
  · exact (getOrders_exact_set_routing
      ⟨["chainId", "orderStatus", "filler"], "chainId_orderStatus_filler"⟩
      (by decide) (some 10) sampleChainFillerQuery none).2 (Or.inl (by decide))

/-- C2: a filter set whose requested dimension combination matches no
supported dimension-set template (and names neither orderHash nor
orderHashes) makes `getOrders` fail with the invalid-query error enumerating
the queryable parameters, regardless of the filter values supplied. -/
theorem getOrders_invalid_combination (limit : Option Nat)
    (q : GetOrdersQueryParams) (cursor : Option String)
    (hall : catalog.all
      (fun t => !areParamsRequested t.dims (getRequestedParams q)) = true)
    (hh : (getRequestedParams q).contains "orderHash" = false)
    (hhs : (getRequestedParams q).contains "orderHashes" = false) :
    getOrders limit q cursor =
      Except.error
        "Invalid query, must query with one of the following params: [orderHash, orderHashes, chainId, orderStatus, swapper, filler]" := by
  simp only [catalog, List.all_cons, List.all_nil, Bool.and_eq_true,
    Bool.not_eq_true', and_true] at hall
  obtain ⟨h1, h2, h3, h4, h5, h6, h7, h8, h9, h10, h11⟩ := hall
  have hh2 : "orderHash" ∉ getRequestedParams q := by simpa using hh
  have hhs2 : "orderHashes" ∉ getRequestedParams q := by simpa using hhs
  simp [getOrders, h1, h2, h3, h4, h5, h6, h7, h8, h9, h10, h11, hh2, hhs2]

/-- Concrete filter set requesting the unsupported combination
{offerer, chainId}. -/
def sampleUnsupportedQuery : GetOrdersQueryParams :=
  { offerer := some "0xOfferer", chainId := some 1 }

/-- Witness for C2: the {offerer, chainId} combination matches no template
and fails with the invalid-query error. -/
theorem getOrders_invalid_combination_witness :
    getOrders (some 10) sampleUnsupportedQuery none =
      Except.error
        "Invalid query, must query with one of the following params: [orderHash, orderHashes, chainId, orderStatus, swapper, filler]" :=
  getOrders_invalid_combination (some 10) sampleUnsupportedQuery none
    (by decide) (by decide) (by decide)


/-! ## Range-query parameter theorems -/

theorem queryOrderEntity_ok (partitionKey index : String) (limit : Option Nat)
    (cursor : Option String) (sortKey sort : Option String) (desc : Option Bool)
    (sq : StoreQuery)
    (h : queryOrderEntity partitionKey index limit cursor sortKey sort desc
      = Except.ok sq) :
    sq.partitionKey = partitionKey ∧
    sq.index = index ++ "-" ++ (sortKey.getD "createdAt") ++ "-all" ∧
    sq.limit = effectiveLimit limit ∧
    (sortKey.isSome = true → parseComparisonFilter sort = Except.ok sq.comparison) ∧
    (sortKey = none → sq.comparison = none) ∧
    sq.reverse = (match sq.comparison with
      | some _ => some (desc.getD true)
      | none => none) := by
  simp only [queryOrderEntity] at h
  cases hc : (if sortKey.isSome then parseComparisonFilter sort
      else Except.ok none : Except String (Option ComparisonFilter)) with
  | error e =>
    rw [hc] at h
    exact Except.noConfusion h
  | ok comp =>
    rw [hc] at h
    cases cursor with
    | none =>
      cases h
      refine ⟨rfl, rfl, rfl, ?_, ?_, rfl⟩
      · intro hsk
        rwa [if_pos hsk] at hc
      · intro h0
        subst h0
        simp only [Option.isSome_none, Bool.false_eq_true, if_false] at hc
        cases hc
        rfl
    | some c =>
      cases hg : getStartKey c
          (some (index ++ "-" ++ (sortKey.getD "createdAt") ++ "-all")) with
      | error e =>
        simp only [hg] at h
        exact Except.noConfusion h
      | ok k =>
        simp only [hg] at h
        cases h
        refine ⟨rfl, rfl, rfl, ?_, ?_, rfl⟩
        · intro hsk
          rwa [if_pos hsk] at hc
        · intro h0
          subst h0
          simp only [Option.isSome_none, Bool.false_eq_true, if_false] at hc
          cases hc
          rfl

/-- C7: for every routed range query, the effective limit handed to the store
is min(requested, 50) when a positive limit is requested and 50 when the
limit is 0 or absent; the ceiling MAX_ORDERS = 50 holds regardless of caller
input. -/
theorem limit_clamped_to_50 (partitionKey index : String) (limit : Option Nat)
    (cursor : Option String) (sortKey sort : Option String) (desc : Option Bool)
    (sq : StoreQuery)
    (h : queryOrderEntity partitionKey index limit cursor sortKey sort desc
      = Except.ok sq) :
    (∀ l, limit = some l → 0 < l → sq.limit = min l 50) ∧
    (limit = none ∨ limit = some 0 → sq.limit = 50) ∧
    sq.limit ≤ 50 := by
  have hq := (queryOrderEntity_ok _ _ _ _ _ _ _ _ h).2.2.1
  refine ⟨?_, ?_, ?_⟩
  · intro l hl hpos
    subst hl
    rw [hq]
    cases l with
    | zero => omega
    | succ n => rfl
  · rintro (hl | hl) <;> subst hl <;> rw [hq] <;> rfl
  · rw [hq]
    cases limit with
    | none => decide
    | some l =>
      cases l with
      | zero => decide
      | succ n =>
        show min (n + 1) 50 ≤ 50
        omega

/-- Witness for C7: a requested limit of 200 is clamped to min 200 50 = 50. -/
theorem limit_clamped_to_50_witness :
    ({ partitionKey := "0xOfferer", index := "offerer-createdAt-all",
       limit := 50 } : StoreQuery).limit = min 200 50 :=
  (limit_clamped_to_50 "0xOfferer" "offerer" (some 200) none none none none
    _ rfl).1 200 rfl (by decide)

/-- Counterexample for C8 as stated: a routed range query with no desc flag
(and no sortKey or sort) passes no scan direction at all to the store — the
built query's `reverse` entry is absent (`none`), not descending
(`some true`); the store's own default for an absent direction applies
instead. -/
theorem desc_not_passed_by_default :
    (queryOrderEntity "0xOfferer" "offerer" (some 10) none none none
        none).map (fun sq => sq.reverse) = Except.ok none ∧
    (none : Option Bool) ≠ some true :=
  ⟨rfl, by decide⟩

/-- C8 amended: the sort key resolves to the caller-supplied sortKey when
given and to the default chronological field createdAt otherwise; the desc
flag (defaulting to true when absent) is passed as the scan direction exactly
when a parsed sort comparison is present — with no sortKey (or no parsed
comparison) no direction is passed to the store. -/
theorem sort_key_resolution_and_direction (partitionKey index : String)
    (limit : Option Nat) (cursor : Option String) (sortKey sort : Option String)
    (desc : Option Bool) (sq : StoreQuery)
    (h : queryOrderEntity partitionKey index limit cursor sortKey sort desc
      = Except.ok sq) :
    sq.index = index ++ "-" ++ (sortKey.getD "createdAt") ++ "-all" ∧
    (∀ c, sq.comparison = some c → sq.reverse = some (desc.getD true)) ∧
    (sq.comparison = none → sq.reverse = none) ∧
    (sortKey = none → sq.reverse = none) := by
  obtain ⟨-, hidx, -, -, hnone, hrev⟩ := queryOrderEntity_ok _ _ _ _ _ _ _ _ h
  refine ⟨hidx, ?_, ?_, ?_⟩
  · intro c hcmp
    rw [hrev, hcmp]
  · intro hcmp
    rw [hrev, hcmp]
  · intro h0
    rw [hrev, hnone h0]

/-- Witness for C8 (amended): with sortKey "createdAt" and sort "gt(123)" the
index resolves to offerer-createdAt-all and descending direction is passed;
the reverse entry of the built query is `some true`. -/
theorem sort_key_resolution_and_direction_witness :
    ({ partitionKey := "0xOfferer", index := "offerer-createdAt-all",
       limit := 50, comparison := some { operator := "gt", values := [123] },
       reverse := some true } : StoreQuery).index
      = "offerer" ++ "-" ++ ((some "createdAt").getD "createdAt") ++ "-all" :=
  (sort_key_resolution_and_direction "0xOfferer" "offerer" none none
    (some "createdAt") (some "gt(123)") none _ rfl).1

/-! ## Cursor field-set theorems -/

theorem names_match_of_check_false (names vk : List String) (hnd : names.Nodup)
    (hvk : vk.Nodup)
    (h : (names.length != vk.length
      || !(names.all (fun s => vk.contains s))) = false) :
    names.toFinset = vk.toFinset := by
  simp only [Bool.or_eq_false_iff, bne_eq_false_iff_eq, Bool.not_eq_false',
    List.all_eq_true, List.elem_eq_mem, decide_eq_true_eq] at h
  obtain ⟨hlen, hsub⟩ := h
  apply Finset.eq_of_subset_of_card_le
  · intro x hx
    rw [List.mem_toFinset] at hx ⊢
    exact hsub x hx
  · rw [List.toFinset_card_of_nodup hnd, List.toFinset_card_of_nodup hvk]
    omega

theorem check_false_of_names_match (names vk : List String) (hnd : names.Nodup)
    (hvk : vk.Nodup) (hset : names.toFinset = vk.toFinset) :
    (names.length != vk.length
      || !(names.all (fun s => vk.contains s))) = false := by
  have hlen : names.length = vk.length := by
    rw [← List.toFinset_card_of_nodup hnd, ← List.toFinset_card_of_nodup hvk,
      hset]
  simp only [hlen, bne_self_eq_false, Bool.false_or, Bool.not_eq_false',
    List.all_eq_true, List.elem_eq_mem, decide_eq_true_eq]
  intro x hx
  have hx2 : x ∈ vk.toFinset := by
    rw [← hset]
    exact List.mem_toFinset.2 hx
  exact List.mem_toFinset.1 hx2

theorem bool_ne_true_of_eq_false {b : Bool} (h : b = false) : ¬(b = true) := by
  subst h
  exact Bool.false_ne_true

/-- C3: (a) a continuation key carrying exactly the field set of catalog
index A, once encoded, is rejected with "Invalid cursor." when submitted
against any different catalog index B; (b) a cursor string that does not
parse as structured data is rejected for every index; (c) an encoded key
whose field set is not exactly the primary key plus the fields implied by the
target index is rejected. -/
theorem cursor_cross_index_rejected :
    (∀ A B : Template, A ∈ catalog → B ∈ catalog → A ≠ B →
      ∀ k : ContinuationKey,
        (k.map Prod.fst).toFinset = {"orderHash", A.indexId, "createdAt"} →
        getStartKey (encode k) (some (B.indexId ++ "-" ++ "createdAt" ++ "-all"))
          = Except.error "Invalid cursor.") ∧
    (∀ index : Option String, decodeParse "x" = none ∧
      getStartKey "x" index = Except.error "Invalid cursor.") ∧
    (∀ B : Template, B ∈ catalog → ∀ k : ContinuationKey,
      (k.map Prod.fst).Nodup →
      (k.map Prod.fst).toFinset ≠ {"orderHash", B.indexId, "createdAt"} →
      getStartKey (encode k) (some (B.indexId ++ "-" ++ "createdAt" ++ "-all"))
        = Except.error "Invalid cursor.") := by
  refine ⟨?_, ?_, ?_⟩
  · intro A B hA hB hAB k hset
    have hk : k ≠ [] := by
      intro he
      subst he
      exact (Finset.insert_ne_empty _ _) hset.symm
    have hmem : A.indexId ∈ k.map Prod.fst := by
      rw [← List.mem_toFinset, hset]
      simp
    rw [getStartKey_encode k hk]
    have hnotin : A.indexId ∉
        expectedCursorKeys (some (B.indexId ++ "-" ++ "createdAt" ++ "-all")) := by
      fin_cases hA <;> fin_cases hB <;> first
        | exact absurd rfl hAB
        | decide
    have hall : ((k.map Prod.fst).all
        (fun s => (expectedCursorKeys
          (some (B.indexId ++ "-" ++ "createdAt" ++ "-all"))).contains s))
          = false := by
      refine List.all_eq_false.2 ⟨A.indexId, hmem, ?_⟩
      simpa using hnotin
    have hC : ((k.map Prod.fst).length
        != (expectedCursorKeys
          (some (B.indexId ++ "-" ++ "createdAt" ++ "-all"))).length
        || !((k.map Prod.fst).all
          (fun s => (expectedCursorKeys
            (some (B.indexId ++ "-" ++ "createdAt" ++ "-all"))).contains s)))
        = true := by
      rw [hall]
      exact Bool.or_true _
    rw [if_pos hC]
  · intro index
    exact ⟨rfl, rfl⟩
  · intro B hB k hnd hne
    cases k with
    | nil => rfl
    | cons p rest =>
      rw [getStartKey_encode (p :: rest) (by simp)]
      cases hcond : (((p :: rest).map Prod.fst).length
          != (expectedCursorKeys
            (some (B.indexId ++ "-" ++ "createdAt" ++ "-all"))).length
          || !(((p :: rest).map Prod.fst).all
            (fun s => (expectedCursorKeys
              (some (B.indexId ++ "-" ++ "createdAt" ++ "-all"))).contains s)))
      with
      | true => simp [hcond]
      | false =>
        exfalso
        apply hne
        have hvknd : (expectedCursorKeys
            (some (B.indexId ++ "-" ++ "createdAt" ++ "-all"))).Nodup := by
          fin_cases hB <;> decide
        rw [names_match_of_check_false _ _ hnd hvknd hcond]
        fin_cases hB <;> decide

/-- Concrete continuation key with the field set of the offerer index. -/
def sampleCursorKey : ContinuationKey :=
  [("orderHash", "0xabc"), ("offerer", "0xOfferer"), ("createdAt", "1667276283")]

/-- Witness for C3: the encoded offerer-index key is rejected when submitted
against the filler index. -/
theorem cursor_cross_index_rejected_witness :
    getStartKey (encode sampleCursorKey)
      (some ("filler" ++ "-" ++ "createdAt" ++ "-all"))
      = Except.error "Invalid cursor." :=
  cursor_cross_index_rejected.1 ⟨["offerer"], "offerer"⟩ ⟨["filler"], "filler"⟩
    (by decide) (by decide) (by decide) sampleCursorKey (by decide)

/-- C9: for every catalog index, a continuation key whose field set is
exactly the primary key plus the fields implied by that index decodes, after
encoding, back to the original key: decode(encode(key), index) = key. -/
theorem cursor_roundtrip (B : Template) (hB : B ∈ catalog)
    (k : ContinuationKey) (hnd : (k.map Prod.fst).Nodup)
    (hset : (k.map Prod.fst).toFinset = {"orderHash", B.indexId, "createdAt"}) :
    getStartKey (encode k) (some (B.indexId ++ "-" ++ "createdAt" ++ "-all"))
      = Except.ok k := by
  have hk : k ≠ [] := by
    intro he
    subst he
    exact (Finset.insert_ne_empty _ _) hset.symm
  rw [getStartKey_encode k hk]
  have hvknd : (expectedCursorKeys
      (some (B.indexId ++ "-" ++ "createdAt" ++ "-all"))).Nodup := by
    fin_cases hB <;> decide
  have hvkset : (expectedCursorKeys
      (some (B.indexId ++ "-" ++ "createdAt" ++ "-all"))).toFinset
      = ({"orderHash", B.indexId, "createdAt"} : Finset String) := by
    fin_cases hB <;> decide
  have hcond := check_false_of_names_match _ _ hnd hvknd
    (hset.trans hvkset.symm)
  rw [if_neg (bool_ne_true_of_eq_false hcond)]

/-- Witness for C9: the offerer-index key round-trips through the codec and
the cursor validation. -/
theorem cursor_roundtrip_witness :
    getStartKey (encode sampleCursorKey)
      (some ("offerer" ++ "-" ++ "createdAt" ++ "-all"))
      = Except.ok sampleCursorKey :=
  cursor_roundtrip ⟨["offerer"], "offerer"⟩ (by decide) sampleCursorKey
    (by decide) (by decide)

/-- Concrete filter set naming orderHash alongside another dimension: the
combination {orderHash, offerer} is not a supported dimension set. -/
def sampleHashOffererQuery : GetOrdersQueryParams :=
  { orderHash := some "0xa2444e", offerer := some "0xOfferer" }

/-- Counterexample for C2 as stated: the requested combination
{orderHash, offerer} matches no supported dimension-set template, yet
`getOrders` does not fail — the membership-based orderHash branch
(`requestedParams.includes(...)`) performs a primary-key point lookup
instead of throwing the invalid-query error. -/
theorem getOrders_unsupported_hash_combination_not_error :
    catalog.all (fun t => !areParamsRequested t.dims
      (getRequestedParams sampleHashOffererQuery)) = true ∧
    getOrders (some 10) sampleHashOffererQuery none =
      Except.ok (RouteResult.pointGet "0xa2444e") ∧
    (Except.ok (RouteResult.pointGet "0xa2444e") : Except String RouteResult)
      ≠ Except.error
        "Invalid query, must query with one of the following params: [orderHash, orderHashes, chainId, orderStatus, swapper, filler]" :=
  ⟨by decide, rfl, fun h => Except.noConfusion h⟩
